import Mathlib

/-!
Verification development for the MindPebbles voice-journal application.

The TypeScript source is shallowly embedded: pure computations become Lean
functions, the browser `localStorage` becomes an explicit association list,
wall-clock instants become integers, and every external HTTP call is
represented by the response the code would observe (an environment record),
so that each handler becomes a total function from its inputs and observed
responses to its resulting state.
-/

namespace MindPebbles

/-! ## JSON values

Result of `JSON.parse` on a response body, used by the analysis adapter
(`src/utils/api.ts`), which returns the parsed object without validating
its shape. -/

inductive Json where
  | str : String → Json
  | num : Rat → Json
  | bool : Bool → Json
  | null : Json
  | arr : List Json → Json
  | obj : List (String × Json) → Json

/-- Field access `j[k]` on a parsed JSON object; `none` plays the role of
JavaScript `undefined` (absent field or non-object receiver). -/
def Json.getField : Json → String → Option Json
  | .obj fields, k => fields.lookup k
  | _, _ => none

/-! ## Data model (`src/types/index.ts`) -/

/-- Embeds `Emotion` from `src/types/index.ts`: free-form name plus a numeric score. -/
structure Emotion where
  name : String
  score : Rat
deriving DecidableEq, Repr

/-- The `level` union type of `PsychMarker`. -/
inductive Level where
  | low
  | medium
  | high
deriving DecidableEq, Repr

/-- Embeds `PsychMarker` from `src/types/index.ts`. -/
structure PsychMarker where
  name : String
  level : Level
  description : String
deriving DecidableEq, Repr

/-- The `role` union type of `ConversationTurn`. -/
inductive Role where
  | user
  | assistant
deriving DecidableEq, Repr

/-- Embeds `ConversationTurn` from `src/types/index.ts`; `audioUrl` is optional. -/
structure ConversationTurn where
  role : Role
  text : String
  audioUrl : Option String
  timestamp : String
deriving DecidableEq, Repr

/-- Embeds `JournalEntry` from `src/types/index.ts`; the `conversation` field is
optional (`none` = absent). -/
structure JournalEntry where
  id : String
  createdAt : String
  transcript : String
  summary : String
  emotions : List Emotion
  topics : List String
  psychMarkers : List PsychMarker
  feedbackText : String
  feedbackAudioUrl : String
  originalAudioUrl : String
  voiceId : String
  conversation : Option (List ConversationTurn)
deriving DecidableEq, Repr

/-- Embeds `Persona` from `src/types/index.ts`. -/
structure Persona where
  id : String
  name : String
  personality : String
  systemPrompt : String
  feedbackStyle : String
  voiceId : String
  createdAt : String
  isCustom : Bool
deriving DecidableEq, Repr

/-- Embeds `InsightAnalysis` from `src/utils/api.ts`: the declared interface of the
analysis adapter result. -/
structure InsightAnalysis where
  summary : String
  emotions : List Emotion
  topics : List String
  psychMarkers : List PsychMarker
  feedbackText : String
deriving DecidableEq, Repr

/-! ## Entitlement gate (`src/utils/stripe.ts`)

`localStorage` is embedded as an association list from keys to the premium
records the code stores under them (serialization through `JSON.stringify`
and `JSON.parse` is abstracted away); the current instant is an integer,
and `new Date(a) > new Date(b)` becomes `a > b`. -/

/-- The record `activatePremium` stores: `{isPremium, activatedAt, expiresAt}`. -/
structure PremiumRecord where
  isPremium : Bool
  activatedAt : Int
  expiresAt : Int
deriving DecidableEq, Repr

/-- The embedded `localStorage` contents relevant to the gate. -/
abbrev Store := List (String × PremiumRecord)

/-- Embeds `localStorage.removeItem`. -/
def storeRemove (key : String) (s : Store) : Store :=
  s.filter (fun p => p.1 != key)

/-- Embeds `localStorage.setItem` (overwrites any previous value under `key`). -/
def storeSet (key : String) (v : PremiumRecord) (s : Store) : Store :=
  (key, v) :: storeRemove key s

/-- Embeds `FREE_ENTRY_LIMIT` from `src/utils/stripe.ts`. -/
def FREE_ENTRY_LIMIT : Nat := 3

/-- Embeds `getPremiumStorageKey` from `src/utils/stripe.ts`; `none` models an
absent `userId` (guest). -/
def getPremiumStorageKey (userId : Option String) : String :=
  match userId with
  | some uid => "mindpebbles_premium_" ++ uid
  | none => "mindpebbles_premium_guest"

/-- Embeds `isPremiumUser` from `src/utils/stripe.ts`: reads the per-identity key
and requires `isPremium` together with a strictly future expiry. It is a
pure read: it returns a boolean and does not modify the store. -/
def isPremiumUser (store : Store) (now : Int) (userId : Option String) : Bool :=
  match store.lookup (getPremiumStorageKey userId) with
  | some rec => rec.isPremium && rec.expiresAt > now
  | none => false

/-- The value `getRemainingFreeEntries` returns: `Infinity` for premium,
otherwise a number. -/
inductive FreeEntries where
  | infinity
  | count (n : Nat)
deriving DecidableEq, Repr

/-- Embeds `getRemainingFreeEntries` from `src/utils/stripe.ts`:
`Infinity` when premium, else `Math.max(0, FREE_ENTRY_LIMIT - totalEntries)`. -/
def getRemainingFreeEntries (store : Store) (now : Int) (totalEntries : Nat)
    (userId : Option String) : FreeEntries :=
  if isPremiumUser store now userId then .infinity
  else .count (max 0 ((FREE_ENTRY_LIMIT : Int) - totalEntries)).toNat

/-- Embeds `hasReachedLimit` from `src/utils/stripe.ts`. -/
def hasReachedLimit (store : Store) (now : Int) (totalEntries : Nat)
    (userId : Option String) : Bool :=
  if isPremiumUser store now userId then false
  else totalEntries ≥ FREE_ENTRY_LIMIT

/-- Embeds `activatePremium` from `src/utils/stripe.ts`: writes a premium record
under the per-identity key. The calendar arithmetic for the expiry
(`expiresAt.setMonth(... + months)`) is abstracted into the `expiresAt`
argument. -/
def activatePremium (store : Store) (userId : Option String)
    (now expiresAt : Int) : Store :=
  storeSet (getPremiumStorageKey userId) ⟨true, now, expiresAt⟩ store

/-- The module-load IIFE `checkExpiredPremium` from `src/utils/stripe.ts`:
it reads the fixed key `'mindpebbles_premium'` (not a per-identity key) and
removes it when it holds an expired premium record. -/
def checkExpiredPremium (store : Store) (now : Int) : Store :=
  match store.lookup "mindpebbles_premium" with
  | some rec =>
      if rec.isPremium && rec.expiresAt ≤ now then
        storeRemove "mindpebbles_premium" store
      else store
  | none => store

/-! ## Adapter layer (`src/utils/api.ts`)

Each `fetch` is embedded as the response record the code observes; a
handler is then a total function from inputs and responses to either its
returned value or the error it throws. -/

/-- The typed errors thrown across `src/utils/api.ts` (there is no
schema-validation error anywhere in the source: no stage rejects a
malformed-but-parseable analysis object). -/
inductive Failure where
  | emptyRecording
  | sttFailed (status : Nat) (message : String)
  | analysisHttpFailed (statusText : String)
  | analysisParseFailed
  | ttsFailed (statusText : String)
  | conversationFailed (statusText : String)
deriving DecidableEq, Repr

/-- A `Blob`: only its `size` and MIME `type` are inspected by the code. -/
structure Blob where
  size : Nat
  type : String
deriving DecidableEq, Repr

/-- The external calls a pipeline invocation can issue, in order. -/
inductive AdapterCall where
  | stt
  | analysis
  | tts
deriving DecidableEq, Repr

/-- Response observed from the ElevenLabs speech-to-text endpoint. -/
structure SttResponse where
  ok : Bool
  status : Nat
  statusText : String
  errorText : String
  text : String
deriving DecidableEq, Repr

/-- Embeds `transcribeAudio` from `src/utils/api.ts`: throws on a zero-size blob
before building the request; otherwise issues the speech-to-text call and
either returns `data.text` or throws the status verbatim. The second
component records which external calls were issued. -/
def transcribeAudio (audioBlob : Blob) (resp : SttResponse) :
    Except Failure String × List AdapterCall :=
  if audioBlob.size = 0 then (.error .emptyRecording, [])
  else if resp.ok then (.ok resp.text, [.stt])
  else (.error (.sttFailed resp.status (resp.statusText ++ " - " ++ resp.errorText)), [.stt])

/-- Response observed from the OpenAI chat endpoint by `analyzeTranscript`:
the `ok` flag, the status text, and the result of `JSON.parse` on
`data.choices[0].message.content` (`none` when that parse throws). -/
structure AnalysisResponse where
  ok : Bool
  statusText : String
  content : Option Json

/-- Embeds `analyzeTranscript` from `src/utils/api.ts` (response handling, lines
312-320 of the persona-aware version): on a non-ok response it throws; on
an ok response it returns `JSON.parse(content)` unchanged. No field,
length, or range check is applied to the parsed object — the prompt
construction (persona resolution and fallback guidance, lines 249-287)
only shapes the request and cannot affect which values are returned. -/
def analyzeTranscript (resp : AnalysisResponse) : Except Failure Json :=
  if resp.ok then
    match resp.content with
    | some analysis => .ok analysis
    | none => .error .analysisParseFailed
  else .error (.analysisHttpFailed resp.statusText)

/-- Response observed from the ElevenLabs text-to-speech endpoint;
`audioUrl` is the `URL.createObjectURL` handle for the returned blob. -/
structure TtsResponse where
  ok : Bool
  statusText : String
  audioUrl : String
deriving DecidableEq, Repr

/-- Embeds `generateSpeech` from `src/utils/api.ts`: throws on a non-ok response,
otherwise returns the object URL of the received audio blob. -/
def generateSpeech (resp : TtsResponse) : Except Failure String :=
  if resp.ok then .ok resp.audioUrl
  else .error (.ttsFailed resp.statusText)

/-- Response observed from the OpenAI chat endpoint by
`continueConversation`: the reply is `data.choices[0].message.content`. -/
structure ConvResponse where
  ok : Bool
  statusText : String
  reply : String
deriving DecidableEq, Repr

/-- Embeds `continueConversation` from `src/utils/api.ts` (result handling): throws
on a non-ok response, otherwise returns the reply text. The system-prompt
and context construction only shape the request. -/
def continueConversation (resp : ConvResponse) : Except Failure String :=
  if resp.ok then .ok resp.reply
  else .error (.conversationFailed resp.statusText)

/-- Embeds `AVAILABLE_VOICES` from the persona-aware `src/utils/api.ts`:
`(id, display name)` pairs. -/
def AVAILABLE_VOICES : List (String × String) :=
  [("pNInz6obpgDQGcFmaJgB", "Adam (Deep, American)"),
   ("EXAVITQu4vr4xnSDxMaL", "Sarah (Calm, Soft)")]

/-! ## Insight pipeline (`handleRecordingComplete`)

Two variants exist in the repository: `src/App.tsx` (Clerk identities,
built-in voices only, conversation mode) and the persona-enabled `App.tsx`
(`src/unnamed/part_002`, custom personas, no conversation mode). Both run
transcription, analysis, and synthesis in sequence inside one `try`,
append the new entry on success, and change nothing on a caught error. -/

/-- The per-invocation environment: the responses the three external calls
would observe, plus the effectful bits of entry assembly
(`crypto.randomUUID()`, `new Date().toISOString()`,
`URL.createObjectURL(audioBlob)`). The `analysis` field is the outcome of
`analyzeTranscript` read back at the declared `InsightAnalysis` interface. -/
structure PipelineEnv where
  stt : SttResponse
  analysis : Except Failure InsightAnalysis
  tts : TtsResponse
  newId : String
  now : String
  originalAudioUrl : String
deriving Repr

/-- Result of one `handleRecordingComplete` invocation: the entry list
after the call, the `selectedEntry` update, the caught error or created
entry, the voice id handed to `generateSpeech` (if that call was reached),
and the external calls issued. -/
structure PipelineOutcome where
  entries : List JournalEntry
  selected : Option JournalEntry
  result : Except Failure JournalEntry
  ttsVoice : Option String
  calls : List AdapterCall
deriving Repr

/-- Embeds `handleRecordingComplete` from `src/App.tsx` (lines 50-96): transcribe,
analyze with the selected built-in voice, synthesize with the same voice,
then prepend the assembled entry; any thrown error is caught, leaving the
entry list untouched. -/
def handleRecordingComplete (env : PipelineEnv) (audioBlob : Blob)
    (selectedVoiceId : String) (entries : List JournalEntry) : PipelineOutcome :=
  match transcribeAudio audioBlob env.stt with
  | (.error e, calls) => ⟨entries, none, .error e, none, calls⟩
  | (.ok transcript, calls) =>
    match env.analysis with
    | .error e => ⟨entries, none, .error e, none, calls ++ [.analysis]⟩
    | .ok analysis =>
      match generateSpeech env.tts with
      | .error e => ⟨entries, none, .error e, some selectedVoiceId, calls ++ [.analysis, .tts]⟩
      | .ok feedbackAudioUrl =>
        let newEntry : JournalEntry :=
          { id := env.newId
            createdAt := env.now
            transcript := transcript
            summary := analysis.summary
            emotions := analysis.emotions
            topics := analysis.topics
            psychMarkers := analysis.psychMarkers
            feedbackText := analysis.feedbackText
            feedbackAudioUrl := feedbackAudioUrl
            originalAudioUrl := env.originalAudioUrl
            voiceId := selectedVoiceId
            conversation := none }
        ⟨newEntry :: entries, some newEntry, .ok newEntry, some selectedVoiceId,
          calls ++ [.analysis, .tts]⟩

/-- JavaScript `a || b` on an optionally-absent string: `undefined` and the
empty string are falsy. -/
def jsOrString (a : Option String) (b : String) : String :=
  match a with
  | some s => if s = "" then b else s
  | none => b

/-- Embeds `handleRecordingComplete` from the persona-enabled `App.tsx`
(`src/unnamed/part_002`, lines 65-120). Differences from the Clerk variant:
the synthesis voice is `selectedPersona?.voiceId || selectedVoiceId`, and
the stored `voiceId` field is
`selectedPersona?.name || AVAILABLE_VOICES.find(...)?.name || 'Unknown'` —
a display name, not a voice identifier. -/
def handleRecordingCompleteP (env : PipelineEnv) (audioBlob : Blob)
    (selectedPersona : Option Persona) (selectedVoiceId : String)
    (entries : List JournalEntry) : PipelineOutcome :=
  match transcribeAudio audioBlob env.stt with
  | (.error e, calls) => ⟨entries, none, .error e, none, calls⟩
  | (.ok transcript, calls) =>
    match env.analysis with
    | .error e => ⟨entries, none, .error e, none, calls ++ [.analysis]⟩
    | .ok analysis =>
      let voiceIdForTTS := jsOrString (selectedPersona.map (·.voiceId)) selectedVoiceId
      match generateSpeech env.tts with
      | .error e => ⟨entries, none, .error e, some voiceIdForTTS, calls ++ [.analysis, .tts]⟩
      | .ok feedbackAudioUrl =>
        let newEntry : JournalEntry :=
          { id := env.newId
            createdAt := env.now
            transcript := transcript
            summary := analysis.summary
            emotions := analysis.emotions
            topics := analysis.topics
            psychMarkers := analysis.psychMarkers
            feedbackText := analysis.feedbackText
            feedbackAudioUrl := feedbackAudioUrl
            originalAudioUrl := env.originalAudioUrl
            voiceId := jsOrString (selectedPersona.map (·.name))
              (jsOrString ((AVAILABLE_VOICES.find? (fun v => v.1 == selectedVoiceId)).map (·.2))
                "Unknown")
            conversation := none }
        ⟨newEntry :: entries, some newEntry, .ok newEntry, some voiceIdForTTS,
          calls ++ [.analysis, .tts]⟩

/-! ## Conversation mode (`src/components/ConversationMode.tsx`) -/

/-- The string form of a turn role, as sent in the chat request. -/
def Role.toRequestRole : Role → String
  | .user => "user"
  | .assistant => "assistant"

/-- A `{role, content}` pair of the chat request body. -/
structure ChatMsg where
  role : String
  content : String
deriving DecidableEq, Repr

/-- The `initialHistory` computed by `ConversationMode` (lines 14-23): the
entry's conversation when present and non-empty, otherwise a single
synthetic assistant turn rebuilt from the entry's feedback text, feedback
audio, and creation timestamp. -/
def initialHistory (entry : JournalEntry) : List ConversationTurn :=
  match entry.conversation with
  | some c =>
      if c.length > 0 then c
      else [⟨.assistant, entry.feedbackText, some entry.feedbackAudioUrl, entry.createdAt⟩]
  | none => [⟨.assistant, entry.feedbackText, some entry.feedbackAudioUrl, entry.createdAt⟩]

/-- The mount effect of `ConversationMode` (lines 39-47): when the entry's
conversation is absent or empty, persist the entry with the seeded history
via `onUpdateEntry`; otherwise persist nothing (`none`). -/
def seedOnMount (entry : JournalEntry) : Option JournalEntry :=
  match entry.conversation with
  | some c =>
      if c.length > 0 then none
      else some { entry with conversation := some (initialHistory entry) }
  | none => some { entry with conversation := some (initialHistory entry) }

/-- Environment of one conversation round: the three responses plus the
effectful bits (`URL.createObjectURL` on the reply blob and the two
`new Date().toISOString()` stamps). -/
structure ConvEnv where
  stt : SttResponse
  conv : ConvResponse
  tts : TtsResponse
  userAudioUrl : String
  userNow : String
  aiNow : String
deriving Repr

/-- Result of one `handleUserMessage` call: the `conversationHistory`
component state afterwards, the entry update persisted via `onUpdateEntry`
(if any), the history argument passed to `continueConversation` (if that
call was reached), and the caught error or final history. -/
structure ConvOutcome where
  history : List ConversationTurn
  persisted : Option JournalEntry
  sent : Option (List ChatMsg)
  result : Except Failure (List ConversationTurn)
deriving Repr

/-- Embeds `handleUserMessage` from `src/components/ConversationMode.tsx` (lines
81-152): transcribe the reply, append a user turn to the state, call
`continueConversation` with `apiHistory.slice(0, -1)` (everything except
the user turn just appended), synthesize the reply, append an assistant
turn, and persist the entry with the final history. A failure after the
user turn was appended leaves that turn in component state but persists
nothing. -/
def handleUserMessage (env : ConvEnv) (entry : JournalEntry)
    (conversationHistory : List ConversationTurn) (audioBlob : Blob) : ConvOutcome :=
  match (transcribeAudio audioBlob env.stt).1 with
  | .error e => ⟨conversationHistory, none, none, .error e⟩
  | .ok userText =>
    let userTurn : ConversationTurn := ⟨.user, userText, some env.userAudioUrl, env.userNow⟩
    let updatedHistory := conversationHistory ++ [userTurn]
    let apiHistory := updatedHistory.map (fun t => ChatMsg.mk t.role.toRequestRole t.text)
    let sentHistory := apiHistory.dropLast
    match continueConversation env.conv with
    | .error e => ⟨updatedHistory, none, some sentHistory, .error e⟩
    | .ok aiResponse =>
      match generateSpeech env.tts with
      | .error e => ⟨updatedHistory, none, some sentHistory, .error e⟩
      | .ok aiAudioUrl =>
        let aiTurn : ConversationTurn := ⟨.assistant, aiResponse, some aiAudioUrl, env.aiNow⟩
        let finalHistory := updatedHistory ++ [aiTurn]
        ⟨finalHistory, some { entry with conversation := some finalHistory },
          some sentHistory, .ok finalHistory⟩

/-- Iterated conversation rounds: runs `handleUserMessage` once per
`(environment, reply blob)` pair, threading the component state, and
returns the final history only if every round succeeded. -/
def runRounds (entry : JournalEntry) :
    List (ConvEnv × Blob) → List ConversationTurn → Option (List ConversationTurn)
  | [], history => some history
  | (env, blob) :: rest, history =>
    let out := handleUserMessage env entry history blob
    match out.result with
    | .ok _ => runRounds entry rest out.history
    | .error _ => none

/-! ## Persona creation workflow (`src/components/PersonaCreator.tsx`) -/

/-- The `currentStep` union type of `PersonaCreator`. -/
inductive CreatorStep where
  | input
  | preview
  | complete
deriving DecidableEq, Repr

/-- The `generatedPersona` transient state: the object returned by
`generatePersonaFromPrompt`. -/
structure GeneratedPersona where
  name : String
  personality : String
  systemPrompt : String
  feedbackStyle : String
deriving DecidableEq, Repr

/-- The `generatedVoice` transient state: the preview voice id and preview
audio URL returned by `generateVoiceFromPrompt`. -/
structure GeneratedVoice where
  voiceId : String
  previewAudioUrl : String
deriving DecidableEq, Repr

/-- The component state of `PersonaCreator` (prompt text, step, transient
preview state, error banner). -/
structure CreatorState where
  prompt : String
  currentStep : CreatorStep
  generatedPersona : Option GeneratedPersona
  generatedVoice : Option GeneratedVoice
  error : Option String
deriving DecidableEq, Repr

/-- Outcomes of the two external calls issued by `handleGenerate`
(`generatePersonaFromPrompt`, then `generateVoiceFromPrompt`); an error
carries the thrown message. -/
structure GenerateEnv where
  personaResult : Except String GeneratedPersona
  voiceResult : Except String GeneratedVoice
deriving Repr

/-- Embeds `handleGenerate` from `src/components/PersonaCreator.tsx` (lines 27-55):
rejects a blank prompt with an error banner; otherwise generates the
persona fields, then the preview voice, entering `preview` on success. A
voice failure keeps the just-generated persona fields (already set) and
the previous preview voice. Nothing is ever persisted here: the second
component of the result is always `none`. -/
def handleGenerate (env : GenerateEnv) (state : CreatorState) :
    CreatorState × Option Persona :=
  if state.prompt.trim = "" then
    ({ state with error := some "Please enter a description for your persona" }, none)
  else
    match env.personaResult with
    | .error m => ({ state with error := some m }, none)
    | .ok p =>
      match env.voiceResult with
      | .error m => ({ state with generatedPersona := some p, error := some m }, none)
      | .ok v =>
        ({ state with
             generatedPersona := some p
             generatedVoice := some v
             currentStep := .preview
             error := none }, none)

/-- Outcome of the `createVoiceFromPreview` call issued by `handleConfirm`,
plus the effectful bits of persona assembly. -/
structure ConfirmEnv where
  finalizeResult : Except String String
  newId : String
  now : String
deriving Repr

/-- Embeds `handleConfirm` from `src/components/PersonaCreator.tsx` (lines 57-92):
returns immediately when preview state is missing; otherwise finalizes the
preview voice. Only on success is a `Persona` assembled (custom flag set,
fresh id, current timestamp, permanent voice id) and handed to
`onPersonaCreated` — the single point of the workflow that persists
anything. On failure the error banner is set and the transient preview
state is left untouched. -/
def handleConfirm (env : ConfirmEnv) (state : CreatorState) :
    CreatorState × Option Persona :=
  match state.generatedPersona, state.generatedVoice with
  | some gp, some _gv =>
    (match env.finalizeResult with
     | .error m => ({ state with error := some m }, none)
     | .ok permanentVoiceId =>
       let persona : Persona :=
         { id := env.newId
           name := gp.name
           personality := gp.personality
           systemPrompt := gp.systemPrompt
           feedbackStyle := gp.feedbackStyle
           voiceId := permanentVoiceId
           createdAt := env.now
           isCustom := true }
       ({ state with currentStep := .complete, error := none }, some persona))
  | _, _ => (state, none)

/-- Embeds `handleRegenerate` from `src/components/PersonaCreator.tsx` (lines
94-99): returns to `input`, discarding both transient preview fields and
the error banner; nothing is persisted. -/
def handleRegenerate (state : CreatorState) : CreatorState × Option Persona :=
  ({ state with
       currentStep := .input
       generatedPersona := none
       generatedVoice := none
       error := none }, none)

/-! ## Concrete sample data for witness instantiations -/

/-- A successful speech-to-text response. -/
def sampleSttOk : SttResponse := ⟨true, 200, "OK", "", "I feel overwhelmed at work"⟩

/-- A well-formed analysis result within the schema bounds. -/
def sampleAnalysis : InsightAnalysis :=
  { summary := "Work pressure is weighing on them."
    emotions := [⟨"stress", 9/10⟩, ⟨"hope", 3/10⟩]
    topics := ["work", "workload"]
    psychMarkers := [⟨"rumination", .medium, "keeps replaying the day"⟩]
    feedbackText := "It sounds like a heavy week. Be gentle with yourself." }

/-- A successful text-to-speech response. -/
def sampleTtsOk : TtsResponse := ⟨true, "OK", "blob:feedback-audio"⟩

/-- A pipeline environment in which all three external calls succeed. -/
def okPipelineEnv : PipelineEnv :=
  ⟨sampleSttOk, .ok sampleAnalysis, sampleTtsOk, "id-1", "2024-01-02T03:04:05Z", "blob:original"⟩

/-- A non-empty recording blob. -/
def sampleBlob : Blob := ⟨2048, "audio/webm"⟩

/-- A placeholder stored entry, used to populate pre-existing collections. -/
def sampleEntry : JournalEntry :=
  { id := "id-0"
    createdAt := "2024-01-01T00:00:00Z"
    transcript := "earlier entry"
    summary := "an earlier day"
    emotions := [⟨"peace", 1/2⟩]
    topics := ["rest"]
    psychMarkers := []
    feedbackText := "Earlier feedback."
    feedbackAudioUrl := "blob:feedback-0"
    originalAudioUrl := "blob:original-0"
    voiceId := "pNInz6obpgDQGcFmaJgB"
    conversation := none }

/-- A custom persona whose bound voice identifier differs from its name. -/
def samplePersona : Persona :=
  ⟨"p1", "Sage", "calm mountain hermit", "You are Sage.", "short and steady",
    "voice_abc123", "2024-01-01T00:00:00Z", true⟩

/-! ## Helper lemmas -/

/-- Looking a key up in a store is unaffected by removing a different key. -/
lemma lookup_storeRemove_ne (s : Store) (k k' : String) (h : k' ≠ k) :
    (storeRemove k s).lookup k' = s.lookup k' := by
  induction s with
  | nil => rfl
  | cons hd tl ih =>
    by_cases hk : hd.1 = k
    · have : (hd.1 != k) = false := by simp [hk]
      simp only [storeRemove, List.filter_cons, this] at ih ⊢
      have hne : (k' == hd.1) = false := by simp [hk, h]
      simp [List.lookup, hne, ih]
    · have : (hd.1 != k) = true := by simp [hk]
      simp only [storeRemove, List.filter_cons, this] at ih ⊢
      by_cases hk' : k' = hd.1
      · simp [List.lookup, hk']
      · have hne : (k' == hd.1) = false := by simp [hk']
        simp [List.lookup, hne, ih]

/-- On a failed run, `handleRecordingComplete` leaves the entry list,
selection, and synthesis voice untouched. -/
lemma handleRecordingComplete_error_spec (env : PipelineEnv) (audioBlob : Blob)
    (v : String) (entries : List JournalEntry) (e : Failure)
    (h : (handleRecordingComplete env audioBlob v entries).result = .error e) :
    (handleRecordingComplete env audioBlob v entries).entries = entries ∧
    (handleRecordingComplete env audioBlob v entries).selected = none := by
  rcases h1 : transcribeAudio audioBlob env.stt with ⟨tres, calls⟩
  cases tres with
  | error te => simp [handleRecordingComplete, h1]
  | ok transcript =>
    cases h2 : env.analysis with
    | error ae => simp [handleRecordingComplete, h1, h2]
    | ok analysis =>
      cases h3 : generateSpeech env.tts with
      | error se => simp [handleRecordingComplete, h1, h2, h3]
      | ok url => simp [handleRecordingComplete, h1, h2, h3] at h

/-- On a successful run, `handleRecordingComplete` prepends exactly the
returned entry, whose fields come verbatim from the stage outputs. -/
lemma handleRecordingComplete_ok_spec (env : PipelineEnv) (audioBlob : Blob)
    (v : String) (entries : List JournalEntry) (entry : JournalEntry)
    (h : (handleRecordingComplete env audioBlob v entries).result = .ok entry) :
    (handleRecordingComplete env audioBlob v entries).entries = entry :: entries ∧
    entry.voiceId = v ∧
    ∃ a, env.analysis = .ok a ∧ entry.summary = a.summary ∧
      entry.emotions = a.emotions ∧ entry.topics = a.topics ∧
      entry.psychMarkers = a.psychMarkers ∧ entry.feedbackText = a.feedbackText := by
  rcases h1 : transcribeAudio audioBlob env.stt with ⟨tres, calls⟩
  cases tres with
  | error te => simp [handleRecordingComplete, h1] at h
  | ok transcript =>
    cases h2 : env.analysis with
    | error ae => simp [handleRecordingComplete, h1, h2] at h
    | ok analysis =>
      cases h3 : generateSpeech env.tts with
      | error se => simp [handleRecordingComplete, h1, h2, h3] at h
      | ok url =>
        simp only [handleRecordingComplete, h1, h2, h3] at h ⊢
        cases h
        exact ⟨rfl, rfl, analysis, rfl, rfl, rfl, rfl, rfl, rfl⟩

/-- For a non-premium identity the remaining-free-entries computation is
truncated subtraction from the limit. -/
lemma remaining_count_of_not_premium (store : Store) (now : Int) (n : Nat)
    (u : Option String) (hp : isPremiumUser store now u = false) :
    getRemainingFreeEntries store now n u = .count (FREE_ENTRY_LIMIT - n) := by
  simp only [getRemainingFreeEntries, hp, Bool.false_eq_true, if_false]
  have hv : (max 0 ((FREE_ENTRY_LIMIT : Int) - (n : Int))).toNat = FREE_ENTRY_LIMIT - n := by
    unfold FREE_ENTRY_LIMIT
    rcases le_or_lt (n : Int) 3 with hn | hn
    · rw [max_eq_right (by omega)]
      omega
    · rw [max_eq_left (by omega)]
      omega
  rw [hv]

/-! ## Claim theorems -/

/-- C4: creation is permitted exactly when the identity is premium or the
entry count is below the fixed free-tier limit of 3 — `hasReachedLimit` is
`false` iff `isPremiumUser` or `count < FREE_ENTRY_LIMIT` — and
`getRemainingFreeEntries` equals `max(0, 3 − count)` (natural-number
truncated subtraction) for a non-premium identity and is unbounded
(`Infinity`) for a premium one. -/
theorem C4_entitlement_gate (store : Store) (now : Int) (n : Nat) (u : Option String) :
    (hasReachedLimit store now n u = false ↔
      (isPremiumUser store now u = true ∨ n < FREE_ENTRY_LIMIT)) ∧
    (isPremiumUser store now u = false →
      getRemainingFreeEntries store now n u = .count (FREE_ENTRY_LIMIT - n)) ∧
    (isPremiumUser store now u = true →
      getRemainingFreeEntries store now n u = .infinity) := by
  by_cases hp : isPremiumUser store now u = true
  · refine ⟨?_, ?_, ?_⟩
    · simp [hasReachedLimit, hp]
    · intro hnot; rw [hp] at hnot; exact absurd hnot (by simp)
    · intro _; simp [getRemainingFreeEntries, hp]
  · have hp' : isPremiumUser store now u = false := by
      cases h : isPremiumUser store now u
      · rfl
      · exact absurd h hp
    refine ⟨?_, ?_, ?_⟩
    · simp only [hasReachedLimit, hp', if_false, Bool.false_eq_true, false_or]
      constructor
      · intro h
        have := of_decide_eq_false h
        omega
      · intro h
        apply decide_eq_false
        omega
    · intro _
      exact remaining_count_of_not_premium store now n u hp'
    · intro h; exact absurd h hp

/-- Witness for C4 at a concrete non-premium state: one entry recorded,
empty store, guest identity. -/
theorem C4_entitlement_gate_witness :
    hasReachedLimit [] 0 1 none = false ∧
    getRemainingFreeEntries [] 0 1 none = .count 2 :=
  ⟨(C4_entitlement_gate [] 0 1 none).1.mpr (Or.inr (by decide)),
   (C4_entitlement_gate [] 0 1 none).2.1 (by decide)⟩

/-- C5 (amended): once the stored premium expiry instant has passed,
`isPremiumUser` returns `false` on the next read; but the read does not
clear the stored record — `isPremiumUser` is a pure read, and the only
cleanup in the module (`checkExpiredPremium`, run once at load) inspects
the fixed key `'mindpebbles_premium'`, which differs from every
per-identity key the gate writes, so stored premium state under a
per-identity key is never cleared. -/
theorem C5_premium_expiry (store : Store) (now : Int) (u : Option String)
    (r : PremiumRecord) :
    (store.lookup (getPremiumStorageKey u) = some r → r.expiresAt ≤ now →
      isPremiumUser store now u = false) ∧
    (∀ k, k ≠ "mindpebbles_premium" →
      (checkExpiredPremium store now).lookup k = store.lookup k) ∧
    getPremiumStorageKey u ≠ "mindpebbles_premium" := by
  refine ⟨?_, ?_, ?_⟩
  · intro hl hexp
    simp only [isPremiumUser, hl]
    simp only [Bool.and_eq_false_iff]
    right
    simp only [decide_eq_false_iff_not]
    omega
  · intro k hk
    unfold checkExpiredPremium
    cases hl : store.lookup "mindpebbles_premium" with
    | none => rfl
    | some r2 =>
      by_cases hc : (r2.isPremium && decide (r2.expiresAt ≤ now)) = true
      · simp only [hc, if_true]
        exact lookup_storeRemove_ne store "mindpebbles_premium" k hk
      · simp only [Bool.not_eq_true] at hc
        simp [hc]
  · cases u with
    | none => decide
    | some uid =>
      intro h
      have hlen := congrArg String.length h
      rw [getPremiumStorageKey, String.length_append] at hlen
      have h1 : ("mindpebbles_premium_" : String).length = 20 := by decide
      have h2 : ("mindpebbles_premium" : String).length = 19 := by decide
      omega

/-- Witness for C5 at a concrete input: a guest premium record that expired
at instant 50 is read at instant 100. -/
theorem C5_premium_expiry_witness :
    isPremiumUser [("mindpebbles_premium_guest", ⟨true, 0, 50⟩)] 100 none = false ∧
    getPremiumStorageKey none ≠ "mindpebbles_premium" :=
  ⟨(C5_premium_expiry [("mindpebbles_premium_guest", ⟨true, 0, 50⟩)] 100 none
      ⟨true, 0, 50⟩).1 (by decide) (by decide),
   (C5_premium_expiry [] 0 none ⟨true, 0, 50⟩).2.2⟩

/-- C5 counterexample: a guest premium record expired at instant 50, read
at instant 100 — the read reports non-premium, yet the stored record
survives the module's only cleanup pass unchanged, so the expired state is
not cleared on read as the claim asserts. -/
theorem C5_counterexample :
    isPremiumUser [("mindpebbles_premium_guest", ⟨true, 0, 50⟩)] 100 none = false ∧
    checkExpiredPremium [("mindpebbles_premium_guest", ⟨true, 0, 50⟩)] 100 =
      [("mindpebbles_premium_guest", ⟨true, 0, 50⟩)] ∧
    ([("mindpebbles_premium_guest", (⟨true, 0, 50⟩ : PremiumRecord))] : Store).lookup
      "mindpebbles_premium_guest" = some ⟨true, 0, 50⟩ := by
  refine ⟨by decide, by decide, by decide⟩

/-- C3: a zero-size audio payload is rejected with the empty-recording
failure before any external call — `transcribeAudio` throws without
issuing its request, the pipeline's caught error is `EmptyRecording`, no
adapter call at all is issued, and the entry collection is unchanged. -/
theorem C3_empty_recording (env : PipelineEnv) (audioBlob : Blob)
    (selectedVoiceId : String) (entries : List JournalEntry)
    (h : audioBlob.size = 0) :
    transcribeAudio audioBlob env.stt = (.error .emptyRecording, []) ∧
    (handleRecordingComplete env audioBlob selectedVoiceId entries).result =
      .error .emptyRecording ∧
    (handleRecordingComplete env audioBlob selectedVoiceId entries).calls = [] ∧
    (handleRecordingComplete env audioBlob selectedVoiceId entries).entries = entries := by
  have ht : transcribeAudio audioBlob env.stt = (.error .emptyRecording, []) := by
    simp [transcribeAudio, h]
  refine ⟨ht, ?_, ?_, ?_⟩ <;> simp [handleRecordingComplete, ht]

/-- Witness for C3: a literally empty blob, with every external service
ready to answer successfully. -/
theorem C3_empty_recording_witness :
    (handleRecordingComplete okPipelineEnv ⟨0, "audio/webm"⟩ "pNInz6obpgDQGcFmaJgB" []).result =
      .error .emptyRecording ∧
    (handleRecordingComplete okPipelineEnv ⟨0, "audio/webm"⟩ "pNInz6obpgDQGcFmaJgB" []).calls = [] :=
  ⟨(C3_empty_recording okPipelineEnv ⟨0, "audio/webm"⟩ "pNInz6obpgDQGcFmaJgB" [] rfl).2.1,
   (C3_empty_recording okPipelineEnv ⟨0, "audio/webm"⟩ "pNInz6obpgDQGcFmaJgB" [] rfl).2.2.1⟩

/-- C2 (amended): a failed pipeline invocation leaves the entry collection
unchanged (no partial entry), and a successful one prepends exactly one
entry; for a non-premium identity whose prior count is below the free
limit, `remainingFree` then decreases by exactly one, while at or above
the limit it stays pinned at 0 (the pipeline has no internal gate, so such
runs do succeed). -/
theorem C2_pipeline_atomicity (env : PipelineEnv) (audioBlob : Blob)
    (selectedVoiceId : String) (entries : List JournalEntry)
    (store : Store) (now : Int) (u : Option String) :
    (∀ e, (handleRecordingComplete env audioBlob selectedVoiceId entries).result = .error e →
      (handleRecordingComplete env audioBlob selectedVoiceId entries).entries = entries) ∧
    (∀ entry, (handleRecordingComplete env audioBlob selectedVoiceId entries).result = .ok entry →
      (handleRecordingComplete env audioBlob selectedVoiceId entries).entries =
        entry :: entries ∧
      (isPremiumUser store now u = false → entries.length < FREE_ENTRY_LIMIT →
        ∃ c, getRemainingFreeEntries store now entries.length u = .count (c + 1) ∧
          getRemainingFreeEntries store now
            (handleRecordingComplete env audioBlob selectedVoiceId entries).entries.length u =
            .count c) ∧
      (isPremiumUser store now u = false → FREE_ENTRY_LIMIT ≤ entries.length →
        getRemainingFreeEntries store now entries.length u = .count 0 ∧
          getRemainingFreeEntries store now
            (handleRecordingComplete env audioBlob selectedVoiceId entries).entries.length u =
            .count 0)) := by
  constructor
  · intro e he
    exact (handleRecordingComplete_error_spec env audioBlob selectedVoiceId entries e he).1
  · intro entry hok
    have hspec := handleRecordingComplete_ok_spec env audioBlob selectedVoiceId entries entry hok
    refine ⟨hspec.1, ?_, ?_⟩
    · intro hp hlt
      refine ⟨FREE_ENTRY_LIMIT - entries.length - 1, ?_, ?_⟩
      · rw [remaining_count_of_not_premium store now entries.length u hp]
        simp only [FreeEntries.count.injEq]
        omega
      · rw [hspec.1]
        rw [remaining_count_of_not_premium store now (entry :: entries).length u hp]
        simp only [FreeEntries.count.injEq, List.length_cons]
        omega
    · intro hp hge
      constructor
      · rw [remaining_count_of_not_premium store now entries.length u hp]
        simp only [FreeEntries.count.injEq]
        omega
      · rw [hspec.1]
        rw [remaining_count_of_not_premium store now (entry :: entries).length u hp]
        simp only [FreeEntries.count.injEq, List.length_cons]
        omega

/-- The entry assembled by `okPipelineEnv` runs of the Clerk-variant
pipeline. -/
def producedEntry : JournalEntry :=
  { id := "id-1"
    createdAt := "2024-01-02T03:04:05Z"
    transcript := "I feel overwhelmed at work"
    summary := sampleAnalysis.summary
    emotions := sampleAnalysis.emotions
    topics := sampleAnalysis.topics
    psychMarkers := sampleAnalysis.psychMarkers
    feedbackText := sampleAnalysis.feedbackText
    feedbackAudioUrl := "blob:feedback-audio"
    originalAudioUrl := "blob:original"
    voiceId := "pNInz6obpgDQGcFmaJgB"
    conversation := none }

/-- Witness for C2: from an empty collection, a fully successful run
prepends one entry and the guest remaining-free count drops from 3 to 2. -/
theorem C2_pipeline_atomicity_witness :
    (handleRecordingComplete okPipelineEnv sampleBlob "pNInz6obpgDQGcFmaJgB" []).entries =
      [producedEntry] ∧
    (∃ c, getRemainingFreeEntries [] 0 ([] : List JournalEntry).length none = .count (c + 1) ∧
      getRemainingFreeEntries [] 0
        (handleRecordingComplete okPipelineEnv sampleBlob "pNInz6obpgDQGcFmaJgB" []).entries.length
        none = .count c) := by
  have h := (C2_pipeline_atomicity okPipelineEnv sampleBlob "pNInz6obpgDQGcFmaJgB" [] [] 0
    none).2 producedEntry rfl
  exact ⟨h.1, h.2.1 rfl (by decide)⟩

/-- C2 counterexample: a non-premium guest already holding 3 entries (the
free limit) runs the pipeline successfully — an entry is still added (the
pipeline has no internal gate), yet `remainingFree` stays at 0 instead of
strictly decreasing by 1. -/
theorem C2_counterexample :
    isPremiumUser [] 0 none = false ∧
    (handleRecordingComplete okPipelineEnv sampleBlob "pNInz6obpgDQGcFmaJgB"
      [sampleEntry, sampleEntry, sampleEntry]).result = .ok producedEntry ∧
    (handleRecordingComplete okPipelineEnv sampleBlob "pNInz6obpgDQGcFmaJgB"
      [sampleEntry, sampleEntry, sampleEntry]).entries.length = 4 ∧
    getRemainingFreeEntries [] 0 3 none = .count 0 ∧
    getRemainingFreeEntries [] 0 4 none = .count 0 :=
  ⟨rfl, rfl, rfl, by decide, by decide⟩

/-- On a failed run, the persona-variant pipeline leaves the entry list
and selection untouched. -/
lemma handleRecordingCompleteP_error_spec (env : PipelineEnv) (audioBlob : Blob)
    (sp : Option Persona) (v : String) (entries : List JournalEntry) (e : Failure)
    (h : (handleRecordingCompleteP env audioBlob sp v entries).result = .error e) :
    (handleRecordingCompleteP env audioBlob sp v entries).entries = entries ∧
    (handleRecordingCompleteP env audioBlob sp v entries).selected = none := by
  rcases h1 : transcribeAudio audioBlob env.stt with ⟨tres, calls⟩
  cases tres with
  | error te => simp [handleRecordingCompleteP, h1]
  | ok transcript =>
    cases h2 : env.analysis with
    | error ae => simp [handleRecordingCompleteP, h1, h2]
    | ok analysis =>
      cases h3 : generateSpeech env.tts with
      | error se => simp [handleRecordingCompleteP, h1, h2, h3]
      | ok url => simp [handleRecordingCompleteP, h1, h2, h3] at h

/-- On a successful run, the persona-variant pipeline prepends exactly the
returned entry; the synthesis voice is the bound voice identifier
(`selectedPersona?.voiceId || selectedVoiceId`) while the stored `voiceId`
field is the display-name chain
(`selectedPersona?.name || voice display name || 'Unknown'`). -/
lemma handleRecordingCompleteP_ok_spec (env : PipelineEnv) (audioBlob : Blob)
    (sp : Option Persona) (v : String) (entries : List JournalEntry)
    (entry : JournalEntry)
    (h : (handleRecordingCompleteP env audioBlob sp v entries).result = .ok entry) :
    (handleRecordingCompleteP env audioBlob sp v entries).entries = entry :: entries ∧
    (handleRecordingCompleteP env audioBlob sp v entries).ttsVoice =
      some (jsOrString (sp.map (·.voiceId)) v) ∧
    entry.voiceId = jsOrString (sp.map (·.name))
      (jsOrString ((AVAILABLE_VOICES.find? (fun p => p.1 == v)).map (·.2)) "Unknown") ∧
    ∃ a, env.analysis = .ok a ∧ entry.feedbackText = a.feedbackText := by
  rcases h1 : transcribeAudio audioBlob env.stt with ⟨tres, calls⟩
  cases tres with
  | error te => simp [handleRecordingCompleteP, h1] at h
  | ok transcript =>
    cases h2 : env.analysis with
    | error ae => simp [handleRecordingCompleteP, h1, h2] at h
    | ok analysis =>
      cases h3 : generateSpeech env.tts with
      | error se => simp [handleRecordingCompleteP, h1, h2, h3] at h
      | ok url =>
        simp only [handleRecordingCompleteP, h1, h2, h3] at h ⊢
        cases h
        simp

/-- C10: every successful pipeline completion, in both `App.tsx` variants,
prepends the new entry: the resulting collection is the new entry followed
by the previous collection, so its length grows by exactly one and every
previously stored entry survives unchanged, in order, as the tail. -/
theorem C10_prepend_newest_first (env : PipelineEnv) (audioBlob : Blob)
    (selectedPersona : Option Persona) (selectedVoiceId : String)
    (entries : List JournalEntry) :
    (∀ entry,
      (handleRecordingComplete env audioBlob selectedVoiceId entries).result = .ok entry →
      (handleRecordingComplete env audioBlob selectedVoiceId entries).entries =
        entry :: entries ∧
      (handleRecordingComplete env audioBlob selectedVoiceId entries).entries.length =
        entries.length + 1 ∧
      (handleRecordingComplete env audioBlob selectedVoiceId entries).entries.tail =
        entries) ∧
    (∀ entry,
      (handleRecordingCompleteP env audioBlob selectedPersona selectedVoiceId entries).result =
        .ok entry →
      (handleRecordingCompleteP env audioBlob selectedPersona selectedVoiceId entries).entries =
        entry :: entries) := by
  constructor
  · intro entry h
    have hspec := handleRecordingComplete_ok_spec env audioBlob selectedVoiceId entries entry h
    refine ⟨hspec.1, ?_, ?_⟩ <;> rw [hspec.1] <;> simp
  · intro entry h
    exact (handleRecordingCompleteP_ok_spec env audioBlob selectedPersona selectedVoiceId
      entries entry h).1

/-- Witness for C10 at a concrete successful run over a one-entry
collection. -/
theorem C10_prepend_newest_first_witness :
    (handleRecordingComplete okPipelineEnv sampleBlob "pNInz6obpgDQGcFmaJgB"
      [sampleEntry]).entries = [producedEntry, sampleEntry] ∧
    (handleRecordingComplete okPipelineEnv sampleBlob "pNInz6obpgDQGcFmaJgB"
      [sampleEntry]).entries.tail = [sampleEntry] := by
  have h := (C10_prepend_newest_first okPipelineEnv sampleBlob none "pNInz6obpgDQGcFmaJgB"
    [sampleEntry]).1 producedEntry rfl
  exact ⟨h.1, h.2.2⟩

/-- C1 (amended): the analysis adapter applies no schema validation —
whenever the HTTP response is ok and its content parses as JSON,
`analyzeTranscript` returns the parsed object unchanged, whatever its
shape (missing fields, out-of-range scores); and the pipeline builds and
prepends a `JournalEntry` from whatever analysis value it receives
whenever the surrounding stages succeed, so the entry count still grows. -/
theorem C1_analysis_no_validation (resp : AnalysisResponse) (j : Json)
    (hok : resp.ok = true) (hc : resp.content = some j) :
    analyzeTranscript resp = .ok j ∧
    (∀ (env : PipelineEnv) (audioBlob : Blob) (v : String)
        (entries : List JournalEntry) (a : InsightAnalysis),
      env.analysis = .ok a → audioBlob.size ≠ 0 → env.stt.ok = true → env.tts.ok = true →
      (handleRecordingComplete env audioBlob v entries).entries.length =
        entries.length + 1) := by
  constructor
  · simp [analyzeTranscript, hok, hc]
  · intro env audioBlob v entries a ha hsz hstt htts
    have h1 : transcribeAudio audioBlob env.stt = (.ok env.stt.text, [.stt]) := by
      simp [transcribeAudio, hsz, hstt]
    have h3 : generateSpeech env.tts = .ok env.tts.audioUrl := by
      simp [generateSpeech, htts]
    simp [handleRecordingComplete, h1, ha, h3]

/-- The parsed analysis content used to exhibit the missing validation: a
JSON object with no `topics` field and an emotion score of 1.5, outside
[0.0, 1.0]. -/
def malformedAnalysis : Json :=
  Json.obj
    [("summary", Json.str "Felt anxious all day"),
     ("emotions", Json.arr [Json.obj [("name", Json.str "anxiety"), ("score", Json.num (3/2))]]),
     ("psychMarkers", Json.arr [Json.obj
       [("name", Json.str "rumination"), ("level", Json.str "high"),
        ("description", Json.str "kept replaying it")]]),
     ("feedbackText", Json.str "Be kind to yourself.")]

/-- Witness for C1 at the malformed response: the parsed object is handed
back verbatim. -/
theorem C1_analysis_no_validation_witness :
    analyzeTranscript ⟨true, "OK", some malformedAnalysis⟩ = .ok malformedAnalysis :=
  (C1_analysis_no_validation ⟨true, "OK", some malformedAnalysis⟩ malformedAnalysis
    rfl rfl).1

/-- C1 counterexample: an ok response whose parsed content has no `topics`
field (and an emotion score of 1.5) is returned as a successful analysis
result — `analyzeTranscript` does not signal any schema failure and hands
the malformed object to its caller. -/
theorem C1_counterexample :
    analyzeTranscript ⟨true, "OK", some malformedAnalysis⟩ = .ok malformedAnalysis ∧
    malformedAnalysis.getField "topics" = none ∧
    (analyzeTranscript ⟨true, "OK", some malformedAnalysis⟩).isOk = true :=
  ⟨rfl, rfl, rfl⟩

/-- C6 (amended): on every successful run of the Clerk-variant pipeline
the stored `voiceId` is the selected built-in voice identifier and the
feedback text is the analysis feedback verbatim; on every successful run
of the persona-variant pipeline the synthesis call is bound to the
persona's voice identifier, but the stored `voiceId` field holds the
persona's display name, not its bound voice identifier (with non-empty
name and voice id; no non-emptiness check guards the feedback text). -/
theorem C6_voice_binding (env : PipelineEnv) (audioBlob : Blob) (p : Persona)
    (selectedVoiceId : String) (entries : List JournalEntry)
    (hn : p.name ≠ "") (hv : p.voiceId ≠ "") :
    (∀ entry,
      (handleRecordingComplete env audioBlob selectedVoiceId entries).result = .ok entry →
      entry.voiceId = selectedVoiceId ∧
      ∃ a, env.analysis = .ok a ∧ entry.feedbackText = a.feedbackText) ∧
    (∀ entry,
      (handleRecordingCompleteP env audioBlob (some p) selectedVoiceId entries).result =
        .ok entry →
      entry.voiceId = p.name ∧
      (handleRecordingCompleteP env audioBlob (some p) selectedVoiceId entries).ttsVoice =
        some p.voiceId ∧
      ∃ a, env.analysis = .ok a ∧ entry.feedbackText = a.feedbackText) := by
  constructor
  · intro entry h
    have hspec := handleRecordingComplete_ok_spec env audioBlob selectedVoiceId entries entry h
    exact ⟨hspec.2.1, by
      obtain ⟨a, ha, _, _, _, _, hf⟩ := hspec.2.2
      exact ⟨a, ha, hf⟩⟩
  · intro entry h
    have hspec := handleRecordingCompleteP_ok_spec env audioBlob (some p) selectedVoiceId
      entries entry h
    refine ⟨?_, ?_, hspec.2.2.2⟩
    · rw [hspec.2.2.1]
      simp [jsOrString, hn]
    · rw [hspec.2.1]
      simp [jsOrString, hv]

/-- The entry assembled by `okPipelineEnv` runs of the persona-variant
pipeline with persona `Sage` and no built-in voice selected. -/
def producedEntryP : JournalEntry :=
  { producedEntry with voiceId := "Sage" }

/-- Witness for C6: a concrete successful run of each variant — the Clerk
variant stores the Adam voice id; the persona variant synthesizes with the
bound voice `voice_abc123` while storing the name `Sage`. -/
theorem C6_voice_binding_witness :
    (∃ a, okPipelineEnv.analysis = .ok a ∧ producedEntry.feedbackText = a.feedbackText) ∧
    producedEntry.voiceId = "pNInz6obpgDQGcFmaJgB" ∧
    (handleRecordingCompleteP okPipelineEnv sampleBlob (some samplePersona) "" []).ttsVoice =
      some "voice_abc123" := by
  have h1 := (C6_voice_binding okPipelineEnv sampleBlob samplePersona "pNInz6obpgDQGcFmaJgB"
    [] (by decide) (by decide)).1 producedEntry rfl
  have h2 := (C6_voice_binding okPipelineEnv sampleBlob samplePersona "" []
    (by decide) (by decide)).2 producedEntryP rfl
  exact ⟨h1.2, h1.1, by rw [h2.2.1]; rfl⟩

/-- C6 counterexample: with persona `Sage` (bound voice `voice_abc123`),
a successful persona-variant run stores `"Sage"` in the entry's `voiceId`
field — the display name, not the bound voice identifier. -/
theorem C6_counterexample :
    ((handleRecordingCompleteP okPipelineEnv sampleBlob (some samplePersona) ""
      []).entries.map (·.voiceId)) = ["Sage"] ∧
    samplePersona.voiceId = "voice_abc123" ∧
    ("Sage" : String) ≠ "voice_abc123" :=
  ⟨rfl, rfl, by decide⟩

/-- C8: conversation seeding is an idempotent migration — an entry with an
absent or empty conversation is given exactly one synthetic assistant turn
carrying the entry's feedback text, feedback audio reference, and creation
timestamp, and that seeded entry is persisted; an entry with a non-empty
conversation is used unchanged and nothing is persisted; reseeding a
just-seeded entry changes nothing and persists nothing. -/
theorem C8_seeding_idempotent (entry : JournalEntry) :
    ((entry.conversation = none ∨ entry.conversation = some []) →
      initialHistory entry =
        [⟨.assistant, entry.feedbackText, some entry.feedbackAudioUrl, entry.createdAt⟩] ∧
      seedOnMount entry = some { entry with conversation := some (initialHistory entry) }) ∧
    (∀ c, entry.conversation = some c → c ≠ [] →
      initialHistory entry = c ∧ seedOnMount entry = none) ∧
    (∀ e2, seedOnMount entry = some e2 →
      seedOnMount e2 = none ∧ initialHistory e2 = initialHistory entry) := by
  refine ⟨?_, ?_, ?_⟩
  · rintro (h | h) <;> simp [initialHistory, seedOnMount, h]
  · intro c hc hne
    have hl : 0 < c.length := List.length_pos.mpr hne
    constructor
    · simp [initialHistory, hc, hl]
    · simp [seedOnMount, hc, hl]
  · intro e2 h2
    rcases hc : entry.conversation with _ | c
    · rw [seedOnMount, hc] at h2
      cases h2
      constructor
      · simp [seedOnMount, initialHistory, hc]
      · simp [initialHistory, hc]
    · rw [seedOnMount, hc] at h2
      by_cases hl : 0 < c.length
      · simp [hl] at h2
      · have hc0 : c = [] := by
          cases c
          · rfl
          · simp at hl
        subst hc0
        simp at h2
        cases h2
        constructor
        · simp [seedOnMount, initialHistory, hc]
        · simp [initialHistory, hc]

/-- Witness for C8: a concrete legacy entry without a conversation is
seeded with the single reconstructed assistant turn, and reseeding the
result is a no-op. -/
theorem C8_seeding_idempotent_witness :
    initialHistory sampleEntry =
      [⟨.assistant, "Earlier feedback.", some "blob:feedback-0", "2024-01-01T00:00:00Z"⟩] ∧
    seedOnMount { sampleEntry with
      conversation := some (initialHistory sampleEntry) } = none := by
  have h1 := (C8_seeding_idempotent sampleEntry).1 (Or.inl rfl)
  have h2 := (C8_seeding_idempotent sampleEntry).2.2
    { sampleEntry with conversation := some (initialHistory sampleEntry) } h1.2
  exact ⟨h1.1, h2.1⟩

/-- C9: in the persona-creation workflow nothing is persisted before voice
finalization succeeds — `handleGenerate` and `handleRegenerate` never
commit a persona, regeneration clears all transient preview state, a
finalization failure commits nothing while leaving both preview fields
intact for retry, and the single commit point hands over a persona with
the custom flag, the fresh id, the current timestamp, and the permanent
voice id exactly when `createVoiceFromPreview` returned one. -/
theorem C9_persona_commit (genEnv : GenerateEnv) (confEnv : ConfirmEnv)
    (state : CreatorState) :
    (handleGenerate genEnv state).2 = none ∧
    (handleRegenerate state).2 = none ∧
    (handleRegenerate state).1.generatedPersona = none ∧
    (handleRegenerate state).1.generatedVoice = none ∧
    (∀ m, confEnv.finalizeResult = .error m →
      (handleConfirm confEnv state).2 = none ∧
      (handleConfirm confEnv state).1.generatedPersona = state.generatedPersona ∧
      (handleConfirm confEnv state).1.generatedVoice = state.generatedVoice) ∧
    (∀ p, (handleConfirm confEnv state).2 = some p →
      ∃ gp permanentVoiceId, state.generatedPersona = some gp ∧
        state.generatedVoice ≠ none ∧
        confEnv.finalizeResult = .ok permanentVoiceId ∧
        p = ⟨confEnv.newId, gp.name, gp.personality, gp.systemPrompt, gp.feedbackStyle,
          permanentVoiceId, confEnv.now, true⟩) := by
  refine ⟨?_, rfl, rfl, rfl, ?_, ?_⟩
  · by_cases hb : state.prompt.trim = ""
    · simp [handleGenerate, hb]
    · cases hp : genEnv.personaResult with
      | error m => simp [handleGenerate, hb, hp]
      | ok p =>
        cases hv : genEnv.voiceResult with
        | error m => simp [handleGenerate, hb, hp, hv]
        | ok v => simp [handleGenerate, hb, hp, hv]
  · intro m hm
    cases hgp : state.generatedPersona with
    | none => simp [handleConfirm, hgp]
    | some gp =>
      cases hgv : state.generatedVoice with
      | none => simp [handleConfirm, hgp, hgv]
      | some gv => simp [handleConfirm, hgp, hgv, hm]
  · intro p hp
    cases hgp : state.generatedPersona with
    | none => simp [handleConfirm, hgp] at hp
    | some gp =>
      cases hgv : state.generatedVoice with
      | none => simp [handleConfirm, hgp, hgv] at hp
      | some gv =>
        cases hf : confEnv.finalizeResult with
        | error m => simp [handleConfirm, hgp, hgv, hf] at hp
        | ok permanentVoiceId =>
          simp only [handleConfirm, hgp, hgv, hf] at hp
          cases hp
          exact ⟨gp, permanentVoiceId, rfl, by simp, rfl, rfl⟩

/-- Witness for C9 at a concrete preview state: a failing finalization
commits nothing and keeps the preview; a succeeding one commits the
assembled custom persona. -/
theorem C9_persona_commit_witness :
    (handleConfirm ⟨.error "quota exceeded", "p9", "t9"⟩
      ⟨"a zen monk", .preview, some ⟨"Zen", "calm", "You are Zen.", "brief"⟩,
        some ⟨"prev_v1", "blob:preview"⟩, none⟩).2 = none ∧
    (handleConfirm ⟨.error "quota exceeded", "p9", "t9"⟩
      ⟨"a zen monk", .preview, some ⟨"Zen", "calm", "You are Zen.", "brief"⟩,
        some ⟨"prev_v1", "blob:preview"⟩, none⟩).1.generatedVoice =
      some ⟨"prev_v1", "blob:preview"⟩ := by
  have h := (C9_persona_commit ⟨.error "gen", .error "voice"⟩
    ⟨.error "quota exceeded", "p9", "t9"⟩
    ⟨"a zen monk", .preview, some ⟨"Zen", "calm", "You are Zen.", "brief"⟩,
      some ⟨"prev_v1", "blob:preview"⟩, none⟩).2.2.2.2.1 "quota exceeded" rfl
  exact ⟨h.1, h.2.2⟩

/-- On a successful conversation round, the component state is the prior
history plus a user turn and an assistant turn (in that order), the
persisted entry carries exactly that final history, and the history
argument of the conversational analysis call is the prior history without
the just-appended user turn. -/
lemma handleUserMessage_ok_spec (env : ConvEnv) (entry : JournalEntry)
    (history : List ConversationTurn) (audioBlob : Blob) (fh : List ConversationTurn)
    (h : (handleUserMessage env entry history audioBlob).result = .ok fh) :
    (handleUserMessage env entry history audioBlob).history = fh ∧
    (∃ u a, u.role = .user ∧ a.role = .assistant ∧ fh = history ++ [u, a]) ∧
    (handleUserMessage env entry history audioBlob).sent =
      some (history.map fun t => ChatMsg.mk t.role.toRequestRole t.text) ∧
    (handleUserMessage env entry history audioBlob).persisted =
      some { entry with conversation := some fh } := by
  cases h1 : (transcribeAudio audioBlob env.stt).1 with
  | error e => simp [handleUserMessage, h1] at h
  | ok userText =>
    cases h2 : continueConversation env.conv with
    | error e => simp [handleUserMessage, h1, h2] at h
    | ok aiResponse =>
      cases h3 : generateSpeech env.tts with
      | error e => simp [handleUserMessage, h1, h2, h3] at h
      | ok aiAudioUrl =>
        simp only [handleUserMessage, h1, h2, h3] at h ⊢
        cases h
        refine ⟨rfl, ⟨⟨.user, userText, some env.userAudioUrl, env.userNow⟩,
          ⟨.assistant, aiResponse, some aiAudioUrl, env.aiNow⟩, rfl, rfl, by simp⟩, ?_, rfl⟩
        simp

/-- Iterated successful rounds only ever append: after `N` successful
rounds the history has grown by exactly `2N` turns and the original
history survives unchanged as a prefix. -/
lemma runRounds_spec (entry : JournalEntry) :
    ∀ (rounds : List (ConvEnv × Blob)) (history fh : List ConversationTurn),
      runRounds entry rounds history = some fh →
      fh.length = history.length + 2 * rounds.length ∧
      fh.take history.length = history := by
  intro rounds
  induction rounds with
  | nil =>
    intro history fh h
    simp only [runRounds, Option.some.injEq] at h
    subst h
    simp
  | cons rb rest ih =>
    intro history fh h
    rcases rb with ⟨env, blob⟩
    simp only [runRounds] at h
    cases hres : (handleUserMessage env entry history blob).result with
    | error e => rw [hres] at h; cases h
    | ok fh1 =>
      rw [hres] at h
      obtain ⟨hhist, ⟨u, a, hu, ha, hfh1⟩, _, _⟩ :=
        handleUserMessage_ok_spec env entry history blob fh1 hres
      rw [hhist, hfh1] at h
      obtain ⟨hlen, hpre⟩ := ih (history ++ [u, a]) fh h
      constructor
      · rw [hlen]
        simp only [List.length_append, List.length_cons, List.length_nil, List.length_cons]
        ring
      · have h2 : fh.take (history ++ [u, a]).length = history ++ [u, a] := hpre
        have h3 : fh.take history.length =
            (fh.take (history ++ [u, a]).length).take history.length := by
          rw [List.take_take]
          congr 1
          simp only [List.length_append, List.length_cons, List.length_nil]
          omega
        rw [h3, h2, List.take_left]

/-- C7: a successful conversation round appends exactly a user turn
followed by an assistant turn, preserving every prior turn unchanged in
its original position; the history sent to the conversational analysis
call excludes the user turn just appended; after `N` successful rounds the
history has grown by exactly `2N`, and on a freshly seeded entry (absent
or empty conversation) it has length `1 + 2N`. -/
theorem C7_conversation_rounds (env : ConvEnv) (entry : JournalEntry)
    (history : List ConversationTurn) (audioBlob : Blob) :
    (∀ fh, (handleUserMessage env entry history audioBlob).result = .ok fh →
      (∃ u a, u.role = .user ∧ a.role = .assistant ∧ fh = history ++ [u, a]) ∧
      fh.length = history.length + 2 ∧
      fh.take history.length = history ∧
      (handleUserMessage env entry history audioBlob).sent =
        some (history.map fun t => ChatMsg.mk t.role.toRequestRole t.text)) ∧
    (∀ rounds fh, runRounds entry rounds history = some fh →
      fh.length = history.length + 2 * rounds.length ∧
      fh.take history.length = history) ∧
    ((entry.conversation = none ∨ entry.conversation = some []) →
      ∀ rounds fh, runRounds entry rounds (initialHistory entry) = some fh →
        fh.length = 1 + 2 * rounds.length) := by
  refine ⟨?_, ?_, ?_⟩
  · intro fh h
    obtain ⟨_, ⟨u, a, hu, ha, hfh⟩, hsent, _⟩ :=
      handleUserMessage_ok_spec env entry history audioBlob fh h
    refine ⟨⟨u, a, hu, ha, hfh⟩, ?_, ?_, hsent⟩
    · rw [hfh]; simp
    · rw [hfh, List.take_left]
  · intro rounds fh h
    exact runRounds_spec entry rounds history fh h
  · intro hempty rounds fh h
    have hlen1 : (initialHistory entry).length = 1 := by
      rcases hempty with h0 | h0 <;> simp [initialHistory, h0]
    have := (runRounds_spec entry rounds (initialHistory entry) fh h).1
    rw [hlen1] at this
    omega

/-- A conversation-round environment in which all three external calls
succeed. -/
def convEnvOk : ConvEnv :=
  ⟨sampleSttOk, ⟨true, "OK", "That makes sense. What would help most right now?"⟩,
    sampleTtsOk, "blob:user-audio", "2024-01-02T03:06:00Z", "2024-01-02T03:06:05Z"⟩

/-- The history produced by one successful `convEnvOk` round on the seeded
sample entry. -/
def roundFinalHistory : List ConversationTurn :=
  initialHistory sampleEntry ++
    [⟨.user, "I feel overwhelmed at work", some "blob:user-audio", "2024-01-02T03:06:00Z"⟩,
     ⟨.assistant, "That makes sense. What would help most right now?",
       some "blob:feedback-audio", "2024-01-02T03:06:05Z"⟩]

/-- Witness for C7: one concrete successful round on the freshly seeded
sample entry grows the history from 1 to 3 turns and sends exactly the
pre-round history to the conversational analysis call. -/
theorem C7_conversation_rounds_witness :
    roundFinalHistory.length = (initialHistory sampleEntry).length + 2 ∧
    (handleUserMessage convEnvOk sampleEntry (initialHistory sampleEntry) sampleBlob).sent =
      some ((initialHistory sampleEntry).map fun t => ChatMsg.mk t.role.toRequestRole t.text) := by
  have h := (C7_conversation_rounds convEnvOk sampleEntry (initialHistory sampleEntry)
    sampleBlob).1 roundFinalHistory rfl
  exact ⟨h.2.1, h.2.2.2⟩

end MindPebbles
